import Mathlib

/-!
Verification development for the Square Transport website client-side layer.

The JavaScript sources embedded here are `src/unnamed/part_000`
(main script: navigation, scroll reveal, counters, notifications,
company-data hydration) and `src/src/scripts/animations.js`
(GSAP timeline engine).  JS numbers that can be NaN are modelled as
`Option ℚ` (with `none` = NaN); DOM elements that may be absent are
modelled as `Option` fields; fallible operations return `Except`.
-/

namespace Square

/-! ## JS value semantics helpers -/

/-- JS `+` on numbers: NaN propagates. -/
def jsAdd : Option ℚ → Option ℚ → Option ℚ
  | some a, some b => some (a + b)
  | _, _ => none

/-- JS `/` by a nonzero literal constant: NaN propagates. -/
def jsDiv (a : Option ℚ) (b : ℚ) : Option ℚ :=
  a.map (fun x => x / b)

/-- JS `>=` on numbers: any comparison involving NaN is false. -/
def jsGe : Option ℚ → Option ℚ → Bool
  | some a, some b => decide (b ≤ a)
  | _, _ => false

/-- JS `Math.floor`: `Math.floor(NaN)` is NaN. -/
def jsFloor : Option ℚ → Option ℤ :=
  Option.map (fun q => ⌊q⌋)

/-- JS number-to-string coercion as used in string concatenation:
NaN prints as `"NaN"`. -/
def jsNumToString : Option ℤ → String
  | none => "NaN"
  | some n => toString n

/-- JS `String.prototype.includes` restricted to one-character needles,
as used by the counter format checks. -/
def jsIncludes (s : String) (c : Char) : Bool :=
  s.data.contains c

/-- JS truthiness of a possibly-absent string value
(`undefined` and the empty string are falsy). -/
def jsTruthyStr : Option String → Bool
  | none => false
  | some s => !s.isEmpty

/-! ## Counter Animator (`setupCounterAnimations.startCounter`,
`src/unnamed/part_000` lines 351-382) -/

/-- The display format inferred each tick from the element text. -/
inductive CounterFormat
  | percentage
  | currencyMillions
  | plainInteger
  deriving DecidableEq, Repr

/-- `startCounter` display branch: `'%'` in the text selects percentage,
otherwise `'M'` selects currency-millions, otherwise plain integer
(lines 366-372). -/
def inferFormat (text : String) : CounterFormat :=
  if jsIncludes text '%' then .percentage
  else if jsIncludes text 'M' then .currencyMillions
  else .plainInteger

/-- Format rule as the spec words it: percentage when the text contains
`'%'`, currency-millions when it contains BOTH `'$'` and `'M'`, plain
integer otherwise.  Kept separate so it can be compared with
`inferFormat`, which is taken from the source. -/
def specInferFormat (text : String) : CounterFormat :=
  if jsIncludes text '%' then .percentage
  else if jsIncludes text '$' && jsIncludes text 'M' then .currencyMillions
  else .plainInteger

/-- `animateStats` format branch in `src/src/scripts/animations.js`
lines 143-185: `'%'` selects percentage, otherwise `'$'` (alone) selects
currency-millions, otherwise plain integer. -/
def animateStatsFormat (endValue : String) : CounterFormat :=
  if jsIncludes endValue '%' then .percentage
  else if jsIncludes endValue '$' then .currencyMillions
  else .plainInteger

/-- Rendering of a tick value (`Math.floor(current)` already applied):
`Math.floor(current) + '%'`, `'$' + Math.floor(current) + 'M'`,
or the bare number (lines 366-372). -/
def renderCounter (fmt : CounterFormat) (v : Option ℤ) : String :=
  match fmt with
  | .percentage => jsNumToString v ++ "%"
  | .currencyMillions => "$" ++ jsNumToString v ++ "M"
  | .plainInteger => jsNumToString v

/-- State of one counter element between 50 ms interval ticks:
the accumulator `current`, whether `clearInterval` has run, and the
element's `textContent`. -/
structure CounterState where
  current : Option ℚ
  cleared : Bool
  text : String
  deriving DecidableEq, Repr

/-- One 50 ms tick of `startCounter` (lines 359-373):
`current += increment`, clamp to `target` and clear the interval when
`current >= target`, then rewrite the element text from `Math.floor`
of the (possibly clamped) accumulator, in the format inferred from the
text currently shown.  `target` is the `parseInt` result of the
`data-target` attribute (NaN when unparseable); the increment is
`target / 60`. -/
def counterTick (target : Option ℚ) (s : CounterState) : CounterState :=
  if s.cleared then s
  else
    let fmt := inferFormat s.text
    let c := jsAdd s.current (jsDiv target 60)
    if jsGe c target then
      { current := target, cleared := true
        text := renderCounter fmt (jsFloor target) }
    else
      { current := c, cleared := false
        text := renderCounter fmt (jsFloor c) }

/-- The counter run: `current` starts at 0, the interval is live, and the
element shows its authored text `text0`. -/
def counterRun (target : Option ℚ) (text0 : String) : ℕ → CounterState
  | 0 => { current := some 0, cleared := false, text := text0 }
  | n + 1 => counterTick target (counterRun target text0 n)

/-- Numeric accumulator of the counter after `n` ticks (0 when NaN,
which never happens for a parseable target). -/
def counterVal (target : Option ℚ) (text0 : String) (n : ℕ) : ℚ :=
  ((counterRun target text0 n).current).getD 0

/-- Numeric value displayed after `n` ticks: `Math.floor` of the
accumulator. -/
def counterDisp (target : Option ℚ) (text0 : String) (n : ℕ) : ℤ :=
  ⌊counterVal target text0 n⌋

/-! ## Navigation Controller (`setupNavigation`, `updateActiveNavigation`,
`src/unnamed/part_000` lines 36-93) -/

/-- Mobile-navigation DOM state: the toggle button class
`nav__toggle--active`, the menu class `nav__menu--open`, the toggle's
`aria-expanded` attribute and `document.body.style.overflow`. -/
structure NavState where
  toggleActive : Bool
  menuOpen : Bool
  ariaExpanded : String
  bodyOverflow : String
  deriving DecidableEq, Repr

/-- The `navToggle` click handler (lines 42-49):
`isOpen = classList.toggle(...)` flips the toggle class and returns the
new presence, the menu class flips too, `aria-expanded` is set to the
stringified `isOpen`, and body overflow becomes `'hidden'` when open,
the empty string when closed. -/
def clickNavToggle (s : NavState) : NavState :=
  let isOpen := !s.toggleActive
  { toggleActive := isOpen
    menuOpen := !s.menuOpen
    ariaExpanded := if isOpen then "true" else "false"
    bodyOverflow := if isOpen then "hidden" else "" }

/-- A click on a link inside the mobile menu (lines 52-59) forces
everything closed. -/
def clickMobileLink (_ : NavState) : NavState :=
  { toggleActive := false, menuOpen := false
    ariaExpanded := "false", bodyOverflow := "" }

/-- One navigation link: its `href` pathname, the presence of the
`nav__link--active` class, and its `aria-current` attribute. -/
structure NavLink where
  href : String
  active : Bool
  ariaCurrent : Option String
  deriving DecidableEq, Repr

/-- Per-link body of `updateActiveNavigation` (lines 83-92): first remove
the active class and `aria-current`, then add both back when
`linkPath === currentPath || (currentPath === '/' && linkPath === '/')`. -/
def updateLink (currentPath : String) (l : NavLink) : NavLink :=
  let cleared : NavLink := { l with active := false, ariaCurrent := none }
  if l.href == currentPath || (currentPath == "/" && l.href == "/") then
    { cleared with active := true, ariaCurrent := some "page" }
  else cleared

/-- `updateActiveNavigation` over the whole `.nav__link` node list. -/
def updateActiveNavigation (currentPath : String) (links : List NavLink) :
    List NavLink :=
  links.map (updateLink currentPath)

/-! ## Scroll-Reveal Engine (`setupScrollReveal`,
`src/unnamed/part_000` lines 113-138) -/

/-- IntersectionObserver threshold from line 116. -/
def observerThreshold : ℚ := 1 / 10

/-- IntersectionObserver root margin from line 117. -/
def observerRootMargin : String := "0px 0px -50px 0px"

/-- State of one reveal target: the `scroll-reveal--visible` class
(the revealed flag), whether the observer still observes the element,
and the inline `transitionDelay` (in seconds) if one was set. -/
structure RevealState where
  revealed : Bool
  observed : Bool
  transitionDelay : Option ℚ
  deriving DecidableEq, Repr

/-- The observer callback for one entry (lines 121-131): only observed
elements produce entries; on `isIntersecting` the visible class is added
and, when the `data-stagger` value is positive, a transition delay of
`stagger * 0.1` seconds is set.  Nothing ever removes the class or calls
`unobserve`. -/
def revealStep (s : RevealState) (isIntersecting : Bool) (stagger : ℕ) :
    RevealState :=
  if s.observed && isIntersecting then
    let s1 : RevealState := { s with revealed := true }
    if stagger > 0 then
      { s1 with transitionDelay := some (stagger * (1 / 10)) }
    else s1
  else s

/-- Folding a sequence of intersection events over one reveal target. -/
def revealRun (s : RevealState) : List (Bool × ℕ) → RevealState
  | [] => s
  | e :: es => revealRun (revealStep s e.1 e.2) es

/-! ## Notification/Toast Manager (`showNotification`,
`src/unnamed/part_000` lines 308-335) -/

/-- Observable lifecycle events of one notification. -/
inductive NotifEvent
  | append
  | exitStart
  | remove
  deriving DecidableEq, Repr

/-- Timer structure of `showNotification` called at time `now` (ms):
the element is appended synchronously (line 326); a `setTimeout` of
5000 ms starts the `slideOutRight` exit animation (lines 329-330); a
nested `setTimeout` of 300 ms removes the element (lines 331-333). -/
def showNotificationTimers (now : ℕ) : List (ℕ × NotifEvent) :=
  let appendTime := now
  let exitTime := now + 5000
  let removeTime := exitTime + 300
  [(appendTime, .append), (exitTime, .exitStart), (removeTime, .remove)]

/-- Background colour chosen on line 316:
`type === 'success' ? 'var(--color-success)' : 'var(--color-error)'`. -/
def notificationBackground (ty : String) : String :=
  if ty == "success" then "var(--color-success)" else "var(--color-error)"

/-- The single created notification element (lines 310-324):
class list, inline background and message text.  The `ty` parameter
defaults to `'info'` exactly as in `showNotification(message, type = 'info')`. -/
structure Notification where
  cssClass : String
  background : String
  message : String
  deriving DecidableEq, Repr

/-- Element construction performed by one `showNotification` call. -/
def mkNotification (message : String) (ty : String) : Notification :=
  { cssClass := "notification notification--" ++ ty
    background := notificationBackground ty
    message := message }

/-- The default severity of `showNotification(message, type = 'info')`. -/
def notificationDefaultType : String := "info"

/-- `showNotification` called with the `type` argument omitted. -/
def mkNotificationDefault (message : String) : Notification :=
  mkNotification message notificationDefaultType

/-! ## Remote Data Hydration (`loadCompanyData`, `populateCompanyData`,
`src/unnamed/part_000` lines 196-267) -/

/-- One achievement object (only `title` is read, line 230). -/
structure Achievement where
  title : String
  deriving DecidableEq, Repr

/-- `benefits` payload fields; `none` models an absent property. -/
structure Benefits where
  cost_reduction : Option String
  energy_reduction : Option String
  carbon_reduction : Option String
  deriving DecidableEq, Repr

/-- `market_data` payload fields; `none` models an absent property. -/
structure MarketData where
  total_addressable_market : Option String
  serviceable_addressable_market : Option String
  serviceable_obtainable_market : Option String
  deriving DecidableEq, Repr

/-- The remote JSON payload: each top-level field may be absent. -/
structure CompanyData where
  achievements : Option (List Achievement)
  benefits : Option Benefits
  market_data : Option MarketData
  deriving DecidableEq, Repr

/-- The display elements the hydrators touch; `none` models a
`querySelector` miss, `some t` an element whose text content is `t`. -/
structure PageElements where
  hasAchievementsSection : Bool
  badge : Option String
  cost : Option String
  energy : Option String
  carbon : Option String
  tam : Option String
  sam : Option String
  som : Option String
  deriving DecidableEq, Repr

/-- `if (element && value) element.textContent = value` with JS string
truthiness (lines 241-249, 258-266). -/
def setIfTruthy (elem : Option String) (v : Option String) : Option String :=
  match elem with
  | none => none
  | some old => if jsTruthyStr v then v else some old

/-- `updateAchievements` (lines 223-233): only when the achievements
section exists and the list is nonempty is the `.badge` text (when the
badge exists) replaced by the first achievement title. -/
def updateAchievements (achievements : List Achievement)
    (page : PageElements) : PageElements :=
  if page.hasAchievementsSection && achievements.length > 0 then
    match page.badge, achievements with
    | some _, a :: _ => { page with badge := some a.title }
    | _, _ => page
  else page

/-- `updateBenefits` (lines 235-250). -/
def updateBenefits (benefits : Benefits) (page : PageElements) :
    PageElements :=
  { page with
    cost := setIfTruthy page.cost benefits.cost_reduction
    energy := setIfTruthy page.energy benefits.energy_reduction
    carbon := setIfTruthy page.carbon benefits.carbon_reduction }

/-- `updateMarketData` (lines 252-267). -/
def updateMarketData (marketData : MarketData) (page : PageElements) :
    PageElements :=
  { page with
    tam := setIfTruthy page.tam marketData.total_addressable_market
    sam := setIfTruthy page.sam marketData.serviceable_addressable_market
    som := setIfTruthy page.som marketData.serviceable_obtainable_market }

/-- `populateCompanyData` (lines 208-221): each hydrator runs only when
its top-level field is present (JS truthiness of an object/array). -/
def populateCompanyData (data : CompanyData) (page : PageElements) :
    PageElements :=
  let p1 := match data.achievements with
    | some a => updateAchievements a page
    | none => page
  let p2 := match data.benefits with
    | some b => updateBenefits b p1
    | none => p1
  match data.market_data with
  | some m => updateMarketData m p2
  | none => p2

/-- Outcome of the `fetch` in `loadCompanyData`: the promise rejected,
or a response arrived with its `ok` flag and parsed body. -/
inductive FetchResult
  | failure (err : String)
  | response (ok : Bool) (data : CompanyData)

/-- `loadCompanyData` (lines 196-206): a successful response hydrates the
page; a non-ok response is ignored; a rejected fetch is caught and logged
via `console.warn`.  Returns the final page and the warn log. -/
def loadCompanyData (r : FetchResult) (page : PageElements) :
    PageElements × List String :=
  match r with
  | .failure e => (page, ["Could not load company data: " ++ e])
  | .response ok data =>
      if ok then (populateCompanyData data page, []) else (page, [])

/-! ## Timeline Animation Engine (`src/src/scripts/animations.js`),
GSAP availability -/

/-- A thrown JS error; referencing the undeclared global `gsap` when the
library is not loaded raises `ReferenceError: gsap is not defined`. -/
inductive JsError
  | referenceError (name : String)
  deriving DecidableEq, Repr

/-- Evaluating a member call on the global `gsap`
(`gsap.set`, `gsap.registerPlugin`, `gsap.globalTimeline`, ...):
fine when GSAP is loaded, a ReferenceError otherwise. -/
def gsapCall (gsapAvailable : Bool) : Except JsError Unit :=
  if gsapAvailable then .ok () else .error (.referenceError "gsap")

/-- Evaluating a member call on the global `ScrollTrigger`. -/
def scrollTriggerCall (gsapAvailable : Bool) : Except JsError Unit :=
  if gsapAvailable then .ok () else .error (.referenceError "ScrollTrigger")

/-- `initGSAP` (lines 12-28): guarded by `typeof gsap !== 'undefined'`;
when GSAP is missing it only warns and returns.  Result: possible error
plus console output.  The guarded branch's GSAP configuration is outside
the scope of these claims and is represented by its (error-free) effect. -/
def initGSAP (gsapAvailable : Bool) : Except JsError (List String) :=
  if gsapAvailable then .ok ["GSAP animations initialized"]
  else .ok ["GSAP not loaded - falling back to CSS animations"]

/-- `setupAnimations` (lines 30-39): `if (typeof gsap === 'undefined')
return;` makes the whole choreography a no-op without GSAP.  The guarded
animation calls themselves run only when GSAP is available. -/
def setupAnimations (gsapAvailable : Bool) : Except JsError Unit :=
  if gsapAvailable then gsapCall gsapAvailable else .ok ()

/-- `setupAccessibility` (lines 420-437): when the reduced-motion media
query matches it runs `gsap.set("*", ...)` and `ScrollTrigger.config(...)`
WITHOUT any availability guard. -/
def setupAccessibility (gsapAvailable : Bool) (reducedMotion : Bool) :
    Except JsError Unit :=
  if reducedMotion then do
    gsapCall gsapAvailable
    scrollTriggerCall gsapAvailable
  else .ok ()

/-- The reduced-motion `change` listener (lines 430-436): both branches
call `gsap.set`, again without an availability guard. -/
def onReducedMotionChange (gsapAvailable : Bool) (_ : Bool) :
    Except JsError Unit :=
  gsapCall gsapAvailable

/-- The `visibilitychange` handler of `setupPerformanceOptimizations`
(lines 409-417): both branches touch `gsap.globalTimeline`, without an
availability guard. -/
def onVisibilityChange (gsapAvailable : Bool) (_ : Bool) :
    Except JsError Unit :=
  gsapCall gsapAvailable

/-! ## Lemmas and claim theorems -/

lemma counterRun_succ (target : Option ℚ) (text0 : String) (n : ℕ) :
    counterRun target text0 (n + 1) = counterTick target (counterRun target text0 n) := rfl

lemma counterTick_cleared (target : Option ℚ) (s : CounterState) (h : s.cleared = true) :
    counterTick target s = s := by
  simp [counterTick, h]

lemma counterTick_live (t : ℚ) (s : CounterState) (v : ℚ) (h : s.cleared = false)
    (hv : s.current = some v) :
    counterTick (some t) s =
      if t ≤ v + t / 60 then
        { current := some t, cleared := true,
          text := renderCounter (inferFormat s.text) (some ⌊t⌋) }
      else
        { current := some (v + t / 60), cleared := false,
          text := renderCounter (inferFormat s.text) (some ⌊v + t / 60⌋) } := by
  simp [counterTick, h, hv, jsAdd, jsDiv, jsGe, jsFloor]

lemma jsIncludes_append_percent (s : String) : jsIncludes (s ++ "%") '%' = true := by
  show (s.data ++ ['%']).contains '%' = true
  simp

lemma counterRun_char (t : ℚ) (ht : 0 ≤ t) (text0 : String) : ∀ n : ℕ,
    ((counterRun (some t) text0 n).cleared = true ∧
      (counterRun (some t) text0 n).current = some t) ∨
    ((counterRun (some t) text0 n).cleared = false ∧
      (counterRun (some t) text0 n).current = some ((n : ℚ) * (t / 60)) ∧
      (n : ℚ) * (t / 60) ≤ t ∧ (1 ≤ n → (n : ℚ) * (t / 60) < t))
  | 0 => by
      right
      refine ⟨rfl, by norm_num [counterRun], by norm_num [ht], fun h => absurd h (by norm_num)⟩
  | n + 1 => by
      rcases counterRun_char t ht text0 n with ⟨hc, hcur⟩ | ⟨hc, hcur, hle, hlt⟩
      · left
        rw [counterRun_succ, counterTick_cleared _ _ hc]
        exact ⟨hc, hcur⟩
      · rw [counterRun_succ, counterTick_live t _ ((n : ℚ) * (t / 60)) hc hcur]
        by_cases hge : t ≤ (n : ℚ) * (t / 60) + t / 60
        · rw [if_pos hge]
          exact Or.inl ⟨rfl, rfl⟩
        · rw [if_neg hge]
          right
          have hcast : ((n : ℚ) + 1) * (t / 60) = (n : ℚ) * (t / 60) + t / 60 := by ring
          have hlt2 : (n : ℚ) * (t / 60) + t / 60 < t := lt_of_not_le hge
          refine ⟨rfl, ?_, ?_, ?_⟩
          · push_cast
            rw [hcast]
          · push_cast
            rw [hcast]
            exact le_of_lt hlt2
          · intro _
            push_cast
            rw [hcast]
            exact hlt2

lemma counterVal_mono (t : ℚ) (ht : 0 ≤ t) (text0 : String) (n : ℕ) :
    counterVal (some t) text0 n ≤ counterVal (some t) text0 (n + 1) := by
  rcases counterRun_char t ht text0 n with ⟨hc, hcur⟩ | ⟨hc, hcur, hle, _⟩
  · rw [counterVal, counterVal, counterRun_succ, counterTick_cleared _ _ hc]
  · rw [counterVal, counterVal, counterRun_succ, counterTick_live t _ ((n : ℚ) * (t / 60)) hc hcur]
    by_cases hge : t ≤ (n : ℚ) * (t / 60) + t / 60
    · rw [if_pos hge, hcur]
      simpa using hle
    · rw [if_neg hge, hcur]
      simp only [Option.getD_some]
      have h60 : (0 : ℚ) ≤ t / 60 := by positivity
      linarith

lemma counterRun_sixty (t : ℚ) (ht : 0 ≤ t) (text0 : String) :
    (counterRun (some t) text0 60).cleared = true ∧
    (counterRun (some t) text0 60).current = some t := by
  rcases counterRun_char t ht text0 60 with ⟨hc, hcur⟩ | ⟨hc, hcur, hle, hlt⟩
  · exact ⟨hc, hcur⟩
  · exfalso
    have h60 : ((60 : ℕ) : ℚ) * (t / 60) = t := by
      push_cast
      ring_nf
    have := hlt (by norm_num)
    rw [h60] at this
    exact lt_irrefl t this

lemma counterRun_stable (target : Option ℚ) (text0 : String) (n : ℕ)
    (h : (counterRun target text0 n).cleared = true) :
    ∀ d : ℕ, counterRun target text0 (n + d) = counterRun target text0 n
  | 0 => rfl
  | d + 1 => by
      rw [show n + (d + 1) = (n + d) + 1 from rfl, counterRun_succ,
        counterRun_stable target text0 n h d, counterTick_cleared _ _ h]

lemma counter_text_percent (target : Option ℚ) (text0 : String)
    (h : jsIncludes text0 '%' = true) :
    ∀ n : ℕ, jsIncludes (counterRun target text0 n).text '%' = true
  | 0 => h
  | n + 1 => by
      have ih := counter_text_percent target text0 h n
      by_cases hc : (counterRun target text0 n).cleared = true
      · rw [counterRun_succ, counterTick_cleared _ _ hc]
        exact ih
      · rw [Bool.not_eq_true] at hc
        have hfmt : inferFormat (counterRun target text0 n).text = .percentage := by
          simp [inferFormat, ih]
        rw [counterRun_succ]
        simp only [counterTick, hc, Bool.false_eq_true, if_false, hfmt]
        split <;> (simp only [renderCounter]; exact jsIncludes_append_percent _)

lemma counter_text_final (t : ℚ) (text0 : String)
    (h : jsIncludes text0 '%' = true) :
    ∀ n : ℕ, (counterRun (some t) text0 n).cleared = true →
      (counterRun (some t) text0 n).text = jsNumToString (some ⌊t⌋) ++ "%"
  | 0 => by
      intro hc
      exact absurd hc (by simp [counterRun])
  | n + 1 => by
      intro hc
      by_cases hcn : (counterRun (some t) text0 n).cleared = true
      · rw [counterRun_succ, counterTick_cleared _ _ hcn]
        exact counter_text_final t text0 h n hcn
      · rw [Bool.not_eq_true] at hcn
        have hfmt : inferFormat (counterRun (some t) text0 n).text = .percentage := by
          simp [inferFormat, counter_text_percent (some t) text0 h n]
        rw [counterRun_succ] at hc ⊢
        simp only [counterTick, hcn, Bool.false_eq_true, if_false, hfmt] at hc ⊢
        split at hc
        · rw [if_pos (by assumption)]
          simp [renderCounter, jsFloor]
        · simp at hc

/-- C1: for every counter target with a parseable non-negative numeric
`data-target` value, the sequence of numeric values displayed by the
counter animation is monotonically non-decreasing starting from 0, the
interval is cleared by tick 60 with the accumulator clamped to the exact
target, every tick from 60 on displays exactly the literal target, and a
percentage-formatted counter ends displaying the literal target followed
by `%`. -/
theorem counter_monotone_exact_target (target : ℕ) (text0 : String) :
    (∀ n : ℕ, counterDisp (some (target : ℚ)) text0 n ≤
      counterDisp (some (target : ℚ)) text0 (n + 1)) ∧
    counterDisp (some (target : ℚ)) text0 0 = 0 ∧
    (∀ n : ℕ, 60 ≤ n →
      counterDisp (some (target : ℚ)) text0 n = (target : ℤ)) ∧
    (counterRun (some (target : ℚ)) text0 60).cleared = true ∧
    (jsIncludes text0 '%' = true →
      (counterRun (some (target : ℚ)) text0 60).text =
        toString (target : ℤ) ++ "%") := by
  have ht : (0 : ℚ) ≤ (target : ℚ) := Nat.cast_nonneg target
  have hsixty := counterRun_sixty (target : ℚ) ht text0
  refine ⟨?_, ?_, ?_, hsixty.1, ?_⟩
  · intro n
    exact Int.floor_le_floor (counterVal_mono (target : ℚ) ht text0 n)
  · simp [counterDisp, counterVal, counterRun]
  · intro n hn
    obtain ⟨d, rfl⟩ := Nat.exists_eq_add_of_le hn
    rw [counterDisp, counterVal, counterRun_stable _ _ _ hsixty.1 d, hsixty.2]
    simp
  · intro hp
    rw [counter_text_final (target : ℚ) text0 hp 60 hsixty.1]
    simp [jsNumToString]

/-- Witness for C1 at target 70 with text `"70%"`: the counter ends
displaying exactly `70` and the text `"70%"`. -/
theorem counter_monotone_exact_target_witness :
    counterDisp (some ((70 : ℕ) : ℚ)) "70%" 60 = ((70 : ℕ) : ℤ) ∧
    (counterRun (some ((70 : ℕ) : ℚ)) "70%" 60).text = "70%" := by
  have h := counter_monotone_exact_target 70 "70%"
  refine ⟨h.2.2.1 60 (le_refl 60), ?_⟩
  rw [h.2.2.2.2 (by decide)]
  decide

set_option maxRecDepth 8000 in
/-- C2: evaluation of the code at an unparseable `data-target`.
`parseInt` yields NaN; `current += NaN/60` stays NaN, `NaN >= NaN` is
false, so the interval is never cleared and every tick overwrites the
element text with `"NaN%"` — the counter is NOT skipped and the text
does NOT stay unchanged. -/
theorem counter_nan_target_not_skipped :
    (counterRun none "70%" 1).text = "NaN%" ∧
    ¬ (counterRun none "70%" 1).text = "70%" ∧
    (counterRun none "70%" 60).cleared = false ∧
    (counterRun none "70%" 60).text = "NaN%" := by decide

/-- C3 counterexample: on the text `"300M"` (contains `M` but no `$`)
the code infers currency-millions while the claimed rule (both `$` and
`M` required) infers plain integer. -/
theorem format_rule_spec_mismatch :
    inferFormat "300M" = CounterFormat.currencyMillions ∧
    specInferFormat "300M" = CounterFormat.plainInteger ∧
    ¬ inferFormat "300M" = specInferFormat "300M" := by decide

/-- C3 (amended): the main counter animator infers percentage from `%`,
otherwise currency-millions from `M` alone (no `$` required), otherwise
plain integer; the stats animator infers currency-millions from `$`
alone; and each live tick renders its output in the format inferred
from the element's current text. -/
theorem format_inference_characterization (text : String)
    (target : Option ℚ) (s : CounterState) :
    (jsIncludes text '%' = true → inferFormat text = .percentage) ∧
    (jsIncludes text '%' = false → jsIncludes text 'M' = true →
      inferFormat text = .currencyMillions) ∧
    (jsIncludes text '%' = false → jsIncludes text 'M' = false →
      inferFormat text = .plainInteger) ∧
    (jsIncludes text '%' = false → jsIncludes text '$' = true →
      animateStatsFormat text = .currencyMillions) ∧
    (s.cleared = false →
      (counterTick target s).text =
        renderCounter (inferFormat s.text)
          (jsFloor (counterTick target s).current)) := by
  refine ⟨?_, ?_, ?_, ?_, ?_⟩
  · intro h
    simp [inferFormat, h]
  · intro h hM
    simp [inferFormat, h, hM]
  · intro h hM
    simp [inferFormat, h, hM]
  · intro h hd
    simp [animateStatsFormat, h, hd]
  · intro hc
    simp only [counterTick, hc, Bool.false_eq_true, if_false]
    split <;> rfl

/-- Witness for C3's amended statement at the texts `"70%"` and
`"$500M"` and a live counter state. -/
theorem format_inference_characterization_witness :
    inferFormat "70%" = CounterFormat.percentage ∧
    animateStatsFormat "$500M" = CounterFormat.currencyMillions ∧
    (counterTick (some 70) ⟨some 0, false, "70%"⟩).text =
      renderCounter (inferFormat "70%")
        (jsFloor (counterTick (some 70) ⟨some 0, false, "70%"⟩).current) := by
  refine ⟨(format_inference_characterization "70%" none ⟨some 0, false, "70%"⟩).1 (by decide),
    (format_inference_characterization "$500M" none ⟨some 0, false, ""⟩).2.2.2.1
      (by decide) (by decide),
    (format_inference_characterization "x" (some 70) ⟨some 0, false, "70%"⟩).2.2.2.2 rfl⟩

lemma navMatch_eq (currentPath href : String) :
    (href == currentPath || (currentPath == "/" && href == "/")) =
      (href == currentPath) := by
  cases hb : href == currentPath <;>
    cases hc : currentPath == "/" <;>
    cases hh : href == "/" <;>
    simp_all [beq_iff_eq]

lemma updateLink_active (currentPath : String) (l : NavLink) :
    (updateLink currentPath l).active = (l.href == currentPath) := by
  unfold updateLink
  rw [navMatch_eq]
  cases h : l.href == currentPath <;> simp [h]

lemma updateLink_href (currentPath : String) (l : NavLink) :
    (updateLink currentPath l).href = l.href := by
  unfold updateLink
  split <;> rfl

lemma updateLink_aria (currentPath : String) (l : NavLink) :
    (updateLink currentPath l).ariaCurrent =
      (if l.href == currentPath then some "page" else none) := by
  unfold updateLink
  rw [navMatch_eq]
  cases h : l.href == currentPath <;> simp [h]

/-- C4 counterexample: with two navigation links whose pathnames both
equal the current path (as happens with a desktop and a mobile copy of
the same menu), `updateActiveNavigation` marks BOTH active — more than
one link ends up with the active class and `aria-current`. -/
theorem active_nav_duplicate_both_marked :
    (updateActiveNavigation "/about"
      [{ href := "/about", active := false, ariaCurrent := none },
       { href := "/about", active := false, ariaCurrent := none }]).countP
      (fun l => l.active) = 2 := by decide

/-- C4 (amended): `updateActiveNavigation` first clears the active class
and `aria-current` from every link, then marks EVERY link whose pathname
equals the current page path (the root special case is subsumed by exact
equality); exactly the matching links are marked, so at most one link is
active only when link pathnames are pairwise distinct. -/
theorem active_nav_marks_matching_links (currentPath : String)
    (links : List NavLink) :
    (∀ l ∈ updateActiveNavigation currentPath links,
      l.active = (l.href == currentPath) ∧
      l.ariaCurrent = (if l.href == currentPath then some "page" else none)) ∧
    ((links.map NavLink.href).Nodup →
      (updateActiveNavigation currentPath links).countP
        (fun l => l.active) ≤ 1) := by
  constructor
  · intro l hl
    obtain ⟨x, _, rfl⟩ := List.mem_map.mp hl
    rw [updateLink_active, updateLink_aria, updateLink_href]
    exact ⟨rfl, rfl⟩
  · intro hnd
    have hcount : (updateActiveNavigation currentPath links).countP
        (fun l => l.active) = (links.map NavLink.href).count currentPath := by
      rw [updateActiveNavigation, List.countP_map, List.count, List.countP_map]
      apply List.countP_congr
      intro a _
      simp only [Function.comp_apply, updateLink_active]
    rw [hcount]
    exact List.nodup_iff_count_le_one.mp hnd currentPath

/-- Witness for C4's amended statement on a two-link menu with distinct
pathnames: at most one link is active. -/
theorem active_nav_marks_matching_links_witness :
    (updateActiveNavigation "/about"
      [{ href := "/", active := false, ariaCurrent := none },
       { href := "/about", active := false, ariaCurrent := none }]).countP
      (fun l => l.active) ≤ 1 := by
  exact (active_nav_marks_matching_links "/about" _).2 (by decide)

lemma revealStep_observed (s : RevealState) (i : Bool) (st : ℕ) :
    (revealStep s i st).observed = s.observed := by
  unfold revealStep
  split
  · split <;> rfl
  · rfl

lemma revealStep_revealed_mono (s : RevealState) (i : Bool) (st : ℕ)
    (h : s.revealed = true) : (revealStep s i st).revealed = true := by
  unfold revealStep
  split
  · split <;> rfl
  · exact h

lemma revealRun_observed (evs : List (Bool × ℕ)) : ∀ s : RevealState,
    (revealRun s evs).observed = s.observed := by
  induction evs with
  | nil => intro s; rfl
  | cons e es ih =>
      intro s
      rw [revealRun, ih, revealStep_observed]

lemma revealRun_revealed_mono (evs : List (Bool × ℕ)) : ∀ s : RevealState,
    s.revealed = true → (revealRun s evs).revealed = true := by
  induction evs with
  | nil => intro s h; exact h
  | cons e es ih =>
      intro s h
      exact ih _ (revealStep_revealed_mono s e.1 e.2 h)

/-- C5 counterexample: a reveal target that has just been revealed by an
intersection event is still observed — the observer never calls
`unobserve`, so the element does NOT stop being observed after the first
reveal. -/
theorem reveal_element_stays_observed :
    (revealStep { revealed := false, observed := true, transitionDelay := none }
      true 0).revealed = true ∧
    (revealStep { revealed := false, observed := true, transitionDelay := none }
      true 0).observed = true := by decide

/-- C5 (amended): with the configured threshold 0.1 and bottom margin
-50 px, an observed element's revealed flag is set by an intersecting
event and never reverts over any sequence of events; the element stays
observed forever (no one-shot unobserve), further intersections merely
re-add the same class. -/
theorem reveal_flag_monotone_never_unobserved (s : RevealState)
    (evs : List (Bool × ℕ)) :
    (revealRun s evs).observed = s.observed ∧
    (s.revealed = true → (revealRun s evs).revealed = true) ∧
    (s.observed = true → ∀ st : ℕ, (revealStep s true st).revealed = true) ∧
    observerThreshold = 1 / 10 ∧
    observerRootMargin = "0px 0px -50px 0px" := by
  refine ⟨revealRun_observed evs s, revealRun_revealed_mono evs s, ?_, rfl, rfl⟩
  intro ho st
  unfold revealStep
  rw [ho]
  simp only [Bool.true_and]
  split <;> (try split) <;> simp_all

/-- Witness for C5's amended statement: a revealed element stays revealed
and observed across further events. -/
theorem reveal_flag_monotone_never_unobserved_witness :
    (revealRun { revealed := true, observed := true, transitionDelay := none }
      [(true, 0), (false, 0)]).revealed = true ∧
    (revealRun { revealed := true, observed := true, transitionDelay := none }
      [(true, 0), (false, 0)]).observed = true := by
  have h := reveal_flag_monotone_never_unobserved
    { revealed := true, observed := true, transitionDelay := none }
    [(true, 0), (false, 0)]
  exact ⟨h.2.1 rfl, h.1⟩

/-- C6: from the closed state, two successive toggle activations leave
the menu closed, the body scroll-lock cleared, and `aria-expanded`
resynchronized to `"false"`. -/
theorem nav_toggle_round_trip (s : NavState) (ht : s.toggleActive = false)
    (hm : s.menuOpen = false) :
    (clickNavToggle (clickNavToggle s)).menuOpen = false ∧
    (clickNavToggle (clickNavToggle s)).bodyOverflow = "" ∧
    (clickNavToggle (clickNavToggle s)).ariaExpanded = "false" ∧
    (clickNavToggle (clickNavToggle s)).toggleActive = false := by
  simp [clickNavToggle, ht, hm]

/-- Witness for C6 at the concrete closed state. -/
theorem nav_toggle_round_trip_witness :
    (clickNavToggle (clickNavToggle
      { toggleActive := false, menuOpen := false,
        ariaExpanded := "false", bodyOverflow := "" })).menuOpen = false ∧
    (clickNavToggle (clickNavToggle
      { toggleActive := false, menuOpen := false,
        ariaExpanded := "false", bodyOverflow := "" })).bodyOverflow = "" ∧
    (clickNavToggle (clickNavToggle
      { toggleActive := false, menuOpen := false,
        ariaExpanded := "false", bodyOverflow := "" })).ariaExpanded = "false" ∧
    (clickNavToggle (clickNavToggle
      { toggleActive := false, menuOpen := false,
        ariaExpanded := "false", bodyOverflow := "" })).toggleActive = false := by
  exact nav_toggle_round_trip _ rfl rfl

/-- C7: each `showNotification` call appends exactly one notification
immediately, starts its exit transition no earlier than 5000 ms after
creation (exactly at 5000 ms), and removes the element exactly 300 ms
after the exit transition starts, at 5300 ms; the timer pair is derived
solely from the call's own creation time, hence independent per call. -/
theorem notification_lifecycle (now : ℕ) :
    (showNotificationTimers now).countP (fun e => e.2 == NotifEvent.append) = 1 ∧
    (showNotificationTimers now).countP (fun e => e.2 == NotifEvent.exitStart) = 1 ∧
    (showNotificationTimers now).countP (fun e => e.2 == NotifEvent.remove) = 1 ∧
    (∀ t : ℕ, (t, NotifEvent.append) ∈ showNotificationTimers now → t = now) ∧
    (∀ t : ℕ, (t, NotifEvent.exitStart) ∈ showNotificationTimers now →
      now + 5000 ≤ t) ∧
    (∀ te tr : ℕ, (te, NotifEvent.exitStart) ∈ showNotificationTimers now →
      (tr, NotifEvent.remove) ∈ showNotificationTimers now →
      tr = te + 300 ∧ tr = now + 5300) := by
  refine ⟨rfl, rfl, rfl, ?_, ?_, ?_⟩
  · intro t h
    simp [showNotificationTimers] at h
    omega
  · intro t h
    simp [showNotificationTimers] at h
    omega
  · intro te tr he hr
    simp [showNotificationTimers] at he hr
    omega

/-- Witness for C7 at creation time 0: the exit transition is scheduled
at 5000 ms and removal at 5300 ms. -/
theorem notification_lifecycle_witness :
    (5300 : ℕ) = 5000 + 300 ∧ (5300 : ℕ) = 0 + 5300 := by
  exact (notification_lifecycle 0).2.2.2.2.2 5000 5300 (by decide) (by decide)

lemma updateAchievements_fields (a : List Achievement) (page : PageElements) :
    (updateAchievements a page).cost = page.cost ∧
    (updateAchievements a page).energy = page.energy ∧
    (updateAchievements a page).carbon = page.carbon ∧
    (updateAchievements a page).tam = page.tam ∧
    (updateAchievements a page).sam = page.sam ∧
    (updateAchievements a page).som = page.som := by
  unfold updateAchievements
  split
  · split <;> simp
  · simp

lemma updateBenefits_fields (b : Benefits) (page : PageElements) :
    (updateBenefits b page).badge = page.badge ∧
    (updateBenefits b page).tam = page.tam ∧
    (updateBenefits b page).sam = page.sam ∧
    (updateBenefits b page).som = page.som := by
  simp [updateBenefits]

lemma updateMarketData_fields (m : MarketData) (page : PageElements) :
    (updateMarketData m page).badge = page.badge ∧
    (updateMarketData m page).cost = page.cost ∧
    (updateMarketData m page).energy = page.energy ∧
    (updateMarketData m page).carbon = page.carbon := by
  simp [updateMarketData]

/-- C8: hydration with an empty payload mutates nothing; for any payload
each absent top-level field leaves every one of its display elements
unchanged; and a failed fetch leaves the page unchanged and only logs a
warning. -/
theorem hydration_missing_fields_safe (data : CompanyData)
    (page : PageElements) :
    populateCompanyData { achievements := none, benefits := none,
                          market_data := none } page = page ∧
    (data.achievements = none →
      (populateCompanyData data page).badge = page.badge) ∧
    (data.benefits = none →
      (populateCompanyData data page).cost = page.cost ∧
      (populateCompanyData data page).energy = page.energy ∧
      (populateCompanyData data page).carbon = page.carbon) ∧
    (data.market_data = none →
      (populateCompanyData data page).tam = page.tam ∧
      (populateCompanyData data page).sam = page.sam ∧
      (populateCompanyData data page).som = page.som) ∧
    (∀ e : String, loadCompanyData (.failure e) page =
      (page, ["Could not load company data: " ++ e])) := by
  obtain ⟨a, b, m⟩ := data
  refine ⟨rfl, ?_, ?_, ?_, fun e => rfl⟩
  · intro h
    simp only at h
    subst h
    cases b with
    | none =>
        cases m with
        | none => rfl
        | some m0 => exact (updateMarketData_fields m0 page).1
    | some b0 =>
        cases m with
        | none => exact (updateBenefits_fields b0 page).1
        | some m0 =>
            rw [show populateCompanyData ⟨none, some b0, some m0⟩ page =
              updateMarketData m0 (updateBenefits b0 page) from rfl]
            rw [(updateMarketData_fields m0 _).1]
            exact (updateBenefits_fields b0 page).1
  · intro h
    simp only at h
    subst h
    cases a with
    | none =>
        cases m with
        | none => exact ⟨rfl, rfl, rfl⟩
        | some m0 =>
            exact ⟨(updateMarketData_fields m0 page).2.1,
              (updateMarketData_fields m0 page).2.2.1,
              (updateMarketData_fields m0 page).2.2.2⟩
    | some a0 =>
        cases m with
        | none =>
            exact ⟨(updateAchievements_fields a0 page).1,
              (updateAchievements_fields a0 page).2.1,
              (updateAchievements_fields a0 page).2.2.1⟩
        | some m0 =>
            rw [show populateCompanyData ⟨some a0, none, some m0⟩ page =
              updateMarketData m0 (updateAchievements a0 page) from rfl]
            refine ⟨?_, ?_, ?_⟩
            · rw [(updateMarketData_fields m0 _).2.1]
              exact (updateAchievements_fields a0 page).1
            · rw [(updateMarketData_fields m0 _).2.2.1]
              exact (updateAchievements_fields a0 page).2.1
            · rw [(updateMarketData_fields m0 _).2.2.2]
              exact (updateAchievements_fields a0 page).2.2.1
  · intro h
    simp only at h
    subst h
    cases a with
    | none =>
        cases b with
        | none => exact ⟨rfl, rfl, rfl⟩
        | some b0 =>
            exact ⟨(updateBenefits_fields b0 page).2.1,
              (updateBenefits_fields b0 page).2.2.1,
              (updateBenefits_fields b0 page).2.2.2⟩
    | some a0 =>
        cases b with
        | none =>
            exact ⟨(updateAchievements_fields a0 page).2.2.2.1,
              (updateAchievements_fields a0 page).2.2.2.2.1,
              (updateAchievements_fields a0 page).2.2.2.2.2⟩
        | some b0 =>
            rw [show populateCompanyData ⟨some a0, some b0, none⟩ page =
              updateBenefits b0 (updateAchievements a0 page) from rfl]
            refine ⟨?_, ?_, ?_⟩
            · rw [(updateBenefits_fields b0 _).2.1]
              exact (updateAchievements_fields a0 page).2.2.2.1
            · rw [(updateBenefits_fields b0 _).2.2.1]
              exact (updateAchievements_fields a0 page).2.2.2.2.1
            · rw [(updateBenefits_fields b0 _).2.2.2]
              exact (updateAchievements_fields a0 page).2.2.2.2.2

/-- Witness for C8: the empty payload leaves a concrete fully-populated
page untouched, and a payload missing `benefits` leaves the benefit
elements untouched. -/
theorem hydration_missing_fields_safe_witness :
    populateCompanyData { achievements := none, benefits := none,
                          market_data := none }
      { hasAchievementsSection := true, badge := some "B",
        cost := some "30%", energy := some "70%", carbon := some "90%",
        tam := some "$500B", sam := some "$50B", som := some "$5B" } =
      { hasAchievementsSection := true, badge := some "B",
        cost := some "30%", energy := some "70%", carbon := some "90%",
        tam := some "$500B", sam := some "$50B", som := some "$5B" } ∧
    (populateCompanyData { achievements := some [{ title := "A" }],
                           benefits := none, market_data := none }
      { hasAchievementsSection := true, badge := some "B",
        cost := some "30%", energy := some "70%", carbon := some "90%",
        tam := some "$500B", sam := some "$50B", som := some "$5B" }).cost =
      some "30%" := by
  have h := hydration_missing_fields_safe
    { achievements := some [{ title := "A" }], benefits := none,
      market_data := none }
    { hasAchievementsSection := true, badge := some "B",
      cost := some "30%", energy := some "70%", carbon := some "90%",
      tam := some "$500B", sam := some "$50B", som := some "$5B" }
  exact ⟨h.1, (h.2.2.1 rfl).1⟩

/-- C9: evaluation of the Timeline Animation Engine with GSAP absent.
`initGSAP` and `setupAnimations` are correctly guarded no-ops, but
`setupAccessibility` — invoked unconditionally on DOMContentLoaded —
dereferences the undeclared global `gsap` whenever the reduced-motion
preference is active, raising a ReferenceError; the same happens in the
preference-change listener and in the visibility-change handler. -/
theorem gsap_missing_reduced_motion_raises :
    initGSAP false = .ok ["GSAP not loaded - falling back to CSS animations"] ∧
    setupAnimations false = .ok () ∧
    setupAccessibility false false = .ok () ∧
    setupAccessibility false true = .error (.referenceError "gsap") ∧
    onReducedMotionChange false true = .error (.referenceError "gsap") ∧
    onVisibilityChange false true = .error (.referenceError "gsap") := by
  exact ⟨rfl, rfl, rfl, rfl, rfl, rfl⟩

/-- C10: every severity other than `'success'` — including the default
`'info'` — gets the error background colour; only `'success'` gets the
success colour, so `'info'` and `'error'` notifications are styled
identically. -/
theorem notification_severity_styling (ty msg : String)
    (h : ¬ ty = "success") :
    notificationBackground ty = "var(--color-error)" ∧
    notificationBackground "info" = notificationBackground "error" ∧
    (mkNotificationDefault msg).background = "var(--color-error)" ∧
    (mkNotification msg "success").background = "var(--color-success)" := by
  refine ⟨?_, rfl, rfl, rfl⟩
  unfold notificationBackground
  rw [if_neg]
  simp only [beq_iff_eq]
  exact h

/-- Witness for C10 at severity `'info'`: an info notification gets the
error background. -/
theorem notification_severity_styling_witness :
    notificationBackground "info" = "var(--color-error)" ∧
    (mkNotificationDefault "hello").background = "var(--color-error)" := by
  have h := notification_severity_styling "info" "hello" (by decide)
  exact ⟨h.1, h.2.2.1⟩

end Square
